import Mathlib

set_option maxHeartbeats 1000000

namespace Notify

/-- JSON values, as produced by parsing the raw payload (`json.loads`) or a
configuration file (`json.load`).  Object fields are kept as an association
list in insertion order; numeric values are modelled as integers
(floating-point payloads are out of scope for every claim). -/
inductive JVal where
  | null
  | bool (b : Bool)
  | num (n : Int)
  | str (s : String)
  | arr (xs : List JVal)
  | obj (fields : List (String × JVal))

/-- Exceptions that the Python code can raise while handling a payload. -/
inductive PyError where
  | typeError (msg : String)
  | attributeError (msg : String)
  | keyError (msg : String)
  | jsonDecodeError (msg : String)
deriving DecidableEq

mutual

/-- Python `==` on parsed JSON values: `True == 1` holds, cross-type
comparisons are `False`; lists and dicts compare structurally.  (Python
dict equality ignores key order; this model compares in order, which no
detector in `parse_input` can observe, since every comparison it performs
has a string literal on one side.) -/
def pyEq : JVal → JVal → Bool
  | .null, .null => true
  | .bool a, .bool b => a == b
  | .bool a, .num n => (if a then (1 : Int) else 0) == n
  | .num n, .bool b => n == (if b then (1 : Int) else 0)
  | .num a, .num b => a == b
  | .str a, .str b => a == b
  | .arr a, .arr b => pyEqList a b
  | .obj a, .obj b => pyEqObj a b
  | _, _ => false

def pyEqList : List JVal → List JVal → Bool
  | [], [] => true
  | x :: xs, y :: ys => pyEq x y && pyEqList xs ys
  | _, _ => false

def pyEqObj : List (String × JVal) → List (String × JVal) → Bool
  | [], [] => true
  | (k, v) :: xs, (k2, v2) :: ys => k == k2 && pyEq v v2 && pyEqObj xs ys
  | _, _ => false

end

/-- Python truthiness of a parsed JSON value. -/
def pyTruthy : JVal → Bool
  | .null => false
  | .bool b => b
  | .num n => n != 0
  | .str s => s ≠ ""
  | .arr xs => !xs.isEmpty
  | .obj l => !l.isEmpty

mutual

/-- Python `repr()` of a parsed JSON value (used by `str()` on containers).
String escaping inside `repr` is not modelled; no claim depends on it. -/
def pyRepr : JVal → String
  | .null => "None"
  | .bool b => if b then "True" else "False"
  | .num n => toString n
  | .str s => "'" ++ s ++ "'"
  | .arr xs => "[" ++ pyReprList xs ++ "]"
  | .obj l => "\x7b" ++ pyReprObj l ++ "\x7d"

def pyReprList : List JVal → String
  | [] => ""
  | [x] => pyRepr x
  | x :: xs => pyRepr x ++ ", " ++ pyReprList xs

def pyReprObj : List (String × JVal) → String
  | [] => ""
  | [(k, v)] => "'" ++ k ++ "': " ++ pyRepr v
  | (k, v) :: xs => "'" ++ k ++ "': " ++ pyRepr v ++ ", " ++ pyReprObj xs

end

/-- Python `str()`, as applied by f-string interpolation. -/
def pyStr : JVal → String
  | .str s => s
  | v => pyRepr v

/-- One character of `json.dumps` string escaping: quote and backslash are
escaped (control-character escapes are not modelled; no claim depends on
the serialized text). -/
def escapeJsonChar (c : Char) : String :=
  if c = Char.ofNat 34 then "\\" ++ String.singleton (Char.ofNat 34)
  else if c = Char.ofNat 92 then "\\\\"
  else String.singleton c

def escapeJsonString (s : String) : String :=
  String.join (s.data.map escapeJsonChar)

mutual

/-- `json.dumps(data, ensure_ascii=False)`: compact form with the default
`", "` and `": "` separators, as used by the fallback message. -/
def jsonDumps : JVal → String
  | .null => "null"
  | .bool b => if b then "true" else "false"
  | .num n => toString n
  | .str s => "\"" ++ escapeJsonString s ++ "\""
  | .arr xs => "[" ++ jsonDumpsList xs ++ "]"
  | .obj l => "\x7b" ++ jsonDumpsObj l ++ "\x7d"

def jsonDumpsList : List JVal → String
  | [] => ""
  | [x] => jsonDumps x
  | x :: xs => jsonDumps x ++ ", " ++ jsonDumpsList xs

def jsonDumpsObj : List (String × JVal) → String
  | [] => ""
  | [(k, v)] => "\"" ++ escapeJsonString k ++ "\": " ++ jsonDumps v
  | (k, v) :: xs =>
      "\"" ++ escapeJsonString k ++ "\": " ++ jsonDumps v ++ ", " ++ jsonDumpsObj xs

end

/-- First-match association-list lookup.  A dict built by `json.loads`
has no duplicate keys (a later duplicate overwrites), so on faithful
payloads first-match and last-match coincide; the model uses first-match
uniformly for `in`, `[...]` and `.get`, which keeps the three consistent. -/
def alistLookup {β : Type} (key : String) : List (String × β) → Option β
  | [] => none
  | (k, v) :: rest => if k = key then some v else alistLookup key rest

/-- Is `needle` a contiguous substring of the character list? -/
def listIsSubOf (needle : List Char) : List Char → Bool
  | [] => needle.isEmpty
  | c :: rest => needle.isPrefixOf (c :: rest) || listIsSubOf needle rest

/-- Python `needle in hay` on strings (substring containment). -/
def strContains (hay needle : String) : Bool :=
  listIsSubOf needle.data hay.data

/-- Python `key in data`: key membership for a dict, substring test for a
string, element membership for a list, and a `TypeError` for non-iterable
values (`None`, booleans, numbers). -/
def pyContains (key : String) : JVal → Except PyError Bool
  | .obj l => .ok (alistLookup key l).isSome
  | .str s => .ok (strContains s key)
  | .arr xs => .ok (xs.any fun x => pyEq (.str key) x)
  | .null => .error (.typeError "argument of type 'NoneType' is not iterable")
  | .bool _ => .error (.typeError "argument of type 'bool' is not iterable")
  | .num _ => .error (.typeError "argument of type 'int' is not iterable")

/-- Python `data[key]` with a string key: dict lookup, `TypeError` for
every other parsed-JSON type. -/
def pyGetItem (data : JVal) (key : String) : Except PyError JVal :=
  match data with
  | .obj l =>
      match alistLookup key l with
      | some v => .ok v
      | none => .error (.keyError key)
  | .str _ => .error (.typeError "string indices must be integers")
  | .arr _ => .error (.typeError "list indices must be integers or slices, not str")
  | .null => .error (.typeError "'NoneType' object is not subscriptable")
  | .bool _ => .error (.typeError "'bool' object is not subscriptable")
  | .num _ => .error (.typeError "'int' object is not subscriptable")

/-- Python `data.get(key, dflt)`: only dicts have `.get`; every other
parsed-JSON type raises `AttributeError`. -/
def pyGet (data : JVal) (key : String) (dflt : JVal) : Except PyError JVal :=
  match data with
  | .obj l => .ok ((alistLookup key l).getD dflt)
  | _ => .error (.attributeError "object has no attribute 'get'")

/-- Python `value.lower()`: only strings have `.lower`. -/
def pyLower : JVal → Except PyError String
  | .str s => .ok s.toLower
  | _ => .error (.attributeError "object has no attribute 'lower'")

/-- Characters of the current final path segment: the accumulator is reset
at each slash. -/
def basenameAux : List Char → List Char → List Char
  | [], acc => acc
  | c :: rest, acc =>
      if c = Char.ofNat 47 then basenameAux rest [] else basenameAux rest (acc ++ [c])

/-- POSIX `os.path.basename` on a string: everything after the last slash
(`/` is character 47). -/
def basenameStr (p : String) : String :=
  String.mk (basenameAux p.data [])

/-- `os.path.basename(file)` raises `TypeError` on a non-path value. -/
def pyBasename : JVal → Except PyError String
  | .str s => .ok (basenameStr s)
  | _ => .error (.typeError "expected str, bytes or os.PathLike object")

/-- `table.get(key, dflt)` for a string-keyed Python dict literal: an
unhashable key (list or dict) raises `TypeError`; other non-string keys
are hashable but equal no string key, so they yield the default. -/
def tableGet (table : List (String × String)) (key : JVal) (dflt : String) :
    Except PyError String :=
  match key with
  | .str s => .ok ((alistLookup s table).getD dflt)
  | .arr _ => .error (.typeError "unhashable type: 'list'")
  | .obj _ => .error (.typeError "unhashable type: 'dict'")
  | _ => .ok dflt

/-- The unified event dict returned by `parse_input`:
`{"platform": str, "event": str, "message": str}`.  The `platform` field is
always a string literal in the source; the `event` and `message` fields can
carry arbitrary payload values (e.g. the raw `notification_type` value), so
they are kept as parsed JSON values. -/
structure Event where
  platform : String
  event : JVal
  message : JVal

/-- `PLATFORM_LABELS` from notify.py. -/
def PLATFORM_LABELS : List (String × String) :=
  [("claude_code", "Claude Code"),
   ("copilot_cli", "GitHub Copilot CLI"),
   ("cursor", "Cursor"),
   ("codex", "Codex"),
   ("aider", "Aider"),
   ("unknown", "AI Agent")]

/-- The `reason_messages` dict of the Copilot sessionEnd detector. -/
def reason_messages : List (String × String) :=
  [("complete", "Task completed"),
   ("error", "Session ended with error"),
   ("abort", "Session aborted"),
   ("timeout", "Session timed out"),
   ("user_exit", "User exited session")]

/-- The Claude Code detector body (lines 78-87 of notify.py), entered when
`"notification_type" in data` is true. -/
def branchClaude (data : JVal) : Except PyError Event :=
  match pyGetItem data "notification_type" with
  | .error e => .error e
  | .ok ntype =>
    match pyGet data "message" (.str "") with
    | .error e => .error e
    | .ok msg =>
      let event_msg :=
        if pyEq ntype (.str "idle_prompt") then
          JVal.str "✅ Task completed — waiting for your input"
        else if pyEq ntype (.str "permission_prompt") then
          JVal.str "🔐 Permission required"
        else if pyTruthy msg then msg else ntype
      .ok ⟨"claude_code", ntype, event_msg⟩

/-- The Copilot sessionEnd detector body (lines 91-101), entered when
`"reason" in data and "toolName" not in data`.  The f-string default is
computed before `reason_messages.get` is applied, which then raises for an
unhashable reason value. -/
def branchReason (data : JVal) : Except PyError Event :=
  match pyGetItem data "reason" with
  | .error e => .error e
  | .ok reason =>
    match tableGet reason_messages reason ("Session ended (" ++ pyStr reason ++ ")") with
    | .error e => .error e
    | .ok event_msg => .ok ⟨"copilot_cli", .str "sessionEnd", .str event_msg⟩

/-- The Copilot postToolUse detector body (lines 104-114), entered when
`"toolName" in data and "toolResult" in data`. -/
def branchTool (data : JVal) : Except PyError Event :=
  match pyGetItem data "toolName" with
  | .error e => .error e
  | .ok tool =>
    match pyGetItem data "toolResult" with
    | .error e => .error e
    | .ok result =>
      let result_type : JVal :=
        match result with
        | .obj l => (alistLookup "resultType" l).getD (.str "")
        | _ => .str ""
      let toolS := pyStr tool
      let table :=
        [("success", "Tool '" ++ toolS ++ "' completed successfully"),
         ("failure", "Tool '" ++ toolS ++ "' failed"),
         ("denied", "Tool '" ++ toolS ++ "' was denied")]
      match tableGet table result_type ("Tool '" ++ toolS ++ "' finished") with
      | .error e => .error e
      | .ok event_msg => .ok ⟨"copilot_cli", .str "postToolUse", .str event_msg⟩

/-- The Copilot sessionStart detector body (lines 117-120). -/
def branchSource (data : JVal) : Except PyError Event :=
  match pyGetItem data "source" with
  | .error e => .error e
  | .ok source =>
      .ok ⟨"copilot_cli", .str "sessionStart",
           .str ("Session started (" ++ pyStr source ++ ")")⟩

/-- The hook_event_name family (lines 123-138), entered when
`data.get("hook_event_name", "")` is truthy; `hook_event` is that value. -/
def branchHook (data : JVal) (hook_event : JVal) : Except PyError Event :=
  match pyGet data "status" (.str "") with
  | .error e => .error e
  | .ok status =>
    let msgE : Except PyError JVal :=
      if pyEq hook_event (.str "sessionEnd") || pyEq hook_event (.str "stop") then
        .ok (.str (if pyEq status (.str "completed") then "Task completed"
                   else "Session ended"))
      else if pyEq hook_event (.str "postToolUse") then
        match pyGet data "tool_name" (.str "tool") with
        | .error e => .error e
        | .ok tool => .ok (.str ("Tool '" ++ pyStr tool ++ "' finished"))
      else if pyEq hook_event (.str "afterFileEdit") then
        match pyGet data "file_path" (.str "file") with
        | .error e => .error e
        | .ok file =>
          match pyBasename file with
          | .error e => .error e
          | .ok base => .ok (.str ("Edited " ++ base))
      else
        .ok hook_event
    match msgE with
    | .error e => .error e
    | .ok event_msg =>
      match pyGet data "agent" (.str "") with
      | .error e => .error e
      | .ok agent =>
        match pyLower agent with
        | .error e => .error e
        | .ok agentLower =>
          let plat := if strContains agentLower "cursor" then "cursor" else "copilot_cli"
          .ok ⟨plat, hook_event, event_msg⟩

/-- The Codex detector body (lines 142-146). -/
def branchCodex (data : JVal) : Except PyError Event :=
  match pyGet data "message" (.str "Agent turn completed") with
  | .error e => .error e
  | .ok msg => .ok ⟨"codex", .str "agent-turn-complete", msg⟩

/-- The final fallback (lines 149-153).  `json.dumps` is evaluated as the
default argument before `.get` looks the key up. -/
def fallbackEvent (data : JVal) : Except PyError Event :=
  match pyGet data "message" (.str (jsonDumps data)) with
  | .error e => .error e
  | .ok msg => .ok ⟨"unknown", .str "notification", msg⟩

/-- The detector chain from the Codex check onward (line 141). -/
def afterHook (data : JVal) : Except PyError Event :=
  match pyContains "agent-turn-complete" data with
  | .error e => .error e
  | .ok true => branchCodex data
  | .ok false =>
    match pyGet data "type" .null with
    | .error e => .error e
    | .ok t =>
      if pyEq t (.str "agent-turn-complete") then branchCodex data
      else fallbackEvent data

/-- The detector chain from the hook_event_name check onward (line 123). -/
def afterSource (data : JVal) : Except PyError Event :=
  match pyGet data "hook_event_name" (.str "") with
  | .error e => .error e
  | .ok hook_event =>
    if pyTruthy hook_event then branchHook data hook_event
    else afterHook data

/-- The detector chain from the sessionStart check onward (line 117);
short-circuit evaluation of `and` is preserved. -/
def afterTool (data : JVal) : Except PyError Event :=
  match pyContains "source" data with
  | .error e => .error e
  | .ok true =>
    (match pyContains "toolName" data with
     | .error e => .error e
     | .ok true => afterSource data
     | .ok false =>
       match pyContains "notification_type" data with
       | .error e => .error e
       | .ok true => afterSource data
       | .ok false => branchSource data)
  | .ok false => afterSource data

/-- The detector chain from the postToolUse check onward (line 104). -/
def afterReason (data : JVal) : Except PyError Event :=
  match pyContains "toolName" data with
  | .error e => .error e
  | .ok true =>
    (match pyContains "toolResult" data with
     | .error e => .error e
     | .ok true => branchTool data
     | .ok false => afterTool data)
  | .ok false => afterTool data

/-- The ordered detector chain applied to parsed stdin data (lines 77-153
of notify.py). -/
def parse_input_core (data : JVal) : Except PyError Event :=
  match pyContains "notification_type" data with
  | .error e => .error e
  | .ok true => branchClaude data
  | .ok false =>
    match pyContains "reason" data with
    | .error e => .error e
    | .ok true =>
      (match pyContains "toolName" data with
       | .error e => .error e
       | .ok false => branchReason data
       | .ok true => afterReason data)
    | .ok false => afterReason data

/-- `parse_input()` (lines 53-153).  `raw` models the stripped stdin text
`_read_stdin().strip()`; `argv` models `sys.argv` (program name first);
`parsed` models the outcome of the external call `json.loads(raw)` —
`none` for a `JSONDecodeError`, `some data` for a successful parse — and
is consulted only when `raw` is non-empty. -/
def parse_input (raw : String) (argv : List String) (parsed : Option JVal) :
    Except PyError Event :=
  if raw = "" ∧ argv.length > 1 then
    .ok ⟨"aider", .str "notification", .str (String.intercalate " " (argv.drop 1))⟩
  else if raw = "" then
    .ok ⟨"unknown", .str "notification", .str ""⟩
  else
    match parsed with
    | none => .ok ⟨"unknown", .str "notification", .str raw⟩
    | some data => parse_input_core data

/-- The user-level candidate path, `os.path.expanduser("~/.claude/notify-config.json")`. -/
def userConfigPath : String := "~/.claude/notify-config.json"

/-- The bundled candidate path, `os.path.join(SCRIPT_DIR, "notify-config.json")`. -/
def bundledConfigPath : String := "SCRIPT_DIR/notify-config.json"

def CONFIG_SEARCH_PATHS : List String := [userConfigPath, bundledConfigPath]

/-- The in-memory minimal default returned when no config file exists. -/
def default_config : JVal :=
  .obj [("channels", .obj
    [("sound", .obj [("enabled", .bool true),
                     ("file", .str "/System/Library/Sounds/Glass.aiff")]),
     ("macos_notification", .obj [("enabled", .bool true)])])]

/-- The candidate-path loop of `load_config`.  The filesystem is the
oracle `fs`: `fs p = none` means `os.path.isfile(p)` is false;
`fs p = some none` means the file exists but `json.load` raises
`JSONDecodeError`; `fs p = some (some v)` means it parses to `v`. -/
def loadConfigGo (fs : String → Option (Option JVal)) :
    List String → Except PyError JVal
  | [] => .ok default_config
  | p :: rest =>
    match fs p with
    | some (some v) => .ok v
    | some none => .error (.jsonDecodeError "Expecting value")
    | none => loadConfigGo fs rest

/-- `load_config()` (lines 160-172 of notify.py). -/
def load_config (fs : String → Option (Option JVal)) : Except PyError JVal :=
  loadConfigGo fs CONFIG_SEARCH_PATHS

/-- `_format_title` (lines 179-181): the label falls back to the raw
platform tag when it is not in `PLATFORM_LABELS`. -/
def format_title (event_info : Event) : String :=
  "Agent Notifier — " ++ (alistLookup event_info.platform PLATFORM_LABELS).getD event_info.platform

/-- `_format_body` (lines 184-185): `event_info["message"] or event_info["event"]`. -/
def format_body (event_info : Event) : JVal :=
  if pyTruthy event_info.message then event_info.message else event_info.event

/-- The keys of `CHANNEL_SENDERS` (lines 289-296). -/
def CHANNEL_SENDERS_NAMES : List String :=
  ["sound", "macos_notification", "telegram", "email", "slack", "discord"]

/-- The `enabled` list comprehension in `main` (lines 308-312): keep the
channels whose config has a truthy `enabled` and whose name is a known
sender; `cfg.get` raises `AttributeError` on a non-dict channel config. -/
def selectEnabled : List (String × JVal) → Except PyError (List (String × JVal))
  | [] => .ok []
  | (name, cfg) :: rest =>
    match pyGet cfg "enabled" .null with
    | .error e => .error e
    | .ok en =>
      match selectEnabled rest with
      | .error e => .error e
      | .ok tail =>
        .ok (if pyTruthy en ∧ name ∈ CHANNEL_SENDERS_NAMES
             then (name, cfg) :: tail else tail)

/-- Observable outcome of one run of `main`: lines printed to the two
streams, the channels whose sender was invoked (in registry order), and
the value returned to `sys.exit`. -/
structure DispatchResult where
  stdoutLines : List String
  stderrLines : List String
  invoked : List String
  exitCode : Nat

/-- `_dispatch` (lines 317-322) for one channel, with the sender behavior
abstracted by the oracle `senders` (`none` = the delivery function
returned, `some excMsg` = it raised and `str(exc) = excMsg`): a failure is
caught and becomes one line on the error stream. -/
def dispatchOne (senders : String → JVal → Event → Option String)
    (ev : Event) (nc : String × JVal) : List String :=
  match senders nc.1 nc.2 ev with
  | none => []
  | some excMsg => ["[agent-notifier] " ++ nc.1 ++ " failed: " ++ excMsg]

/-- The error-stream lines produced by dispatching each enabled channel.
The thread pool runs channels concurrently; each task touches only its own
channel, so the set of lines is interleaving-independent and is modelled
in registry order. -/
def dispatchLines (senders : String → JVal → Event → Option String)
    (ev : Event) : List (String × JVal) → List String
  | [] => []
  | nc :: rest => dispatchOne senders ev nc ++ dispatchLines senders ev rest

/-- The `ThreadPoolExecutor` fan-out of `main` (lines 324-325): every
enabled channel's sender is invoked exactly once; per-channel failures
only produce error-stream lines; nothing reaches standard output; the
dispatch itself never raises. -/
def dispatchAll (senders : String → JVal → Event → Option String)
    (ev : Event) (enabled : List (String × JVal)) : DispatchResult :=
  ⟨[], dispatchLines senders ev enabled, enabled.map Prod.fst, 0⟩

/-- `main()` (lines 303-327) followed by `sys.exit(main())`: an uncaught
exception from parsing, config loading or channel selection terminates
the process with a non-zero status (modelled as `.error`); a normal run
returns the observable `DispatchResult` with `exitCode = 0`. -/
def main (raw : String) (argv : List String) (parsed : Option JVal)
    (fs : String → Option (Option JVal))
    (senders : String → JVal → Event → Option String) :
    Except PyError DispatchResult :=
  match parse_input raw argv parsed with
  | .error e => .error e
  | .ok event_info =>
    match load_config fs with
    | .error e => .error e
    | .ok config =>
      match pyGet config "channels" (.obj []) with
      | .error e => .error e
      | .ok channels =>
        match channels with
        | .obj items =>
          (match selectEnabled items with
           | .error e => .error e
           | .ok enabled =>
             if enabled.isEmpty then .ok ⟨[], [], [], 0⟩
             else .ok (dispatchAll senders event_info enabled))
        | _ => .error (.attributeError "object has no attribute 'items'")

/-- Modelled from the spec: `_get_git_repo_name(path)` is part of this
repository's notifier (its unit tests are in src/skills/agent-notifier/
test_notify.py) but the function itself is absent from the src snapshot of
notify.py.  Per spec section 4.2 it runs a time-bounded version-control
query from `path` and returns the base name of the repository's top-level
directory, and returns the empty string on any failure (non-repository
directory, missing tool, timeout).  The query is abstracted by the oracle
`git`: `git path = some toplevel` on success, `none` on any failure. -/
def getGitRepoName (git : String → Option String) (path : String) : String :=
  match git path with
  | some toplevel => basenameStr toplevel
  | none => ""

/-- Modelled from the spec: the directory selected by the Context
Enricher — the payload's own working-directory hint when present (spec
section 4.2, resolution step 1), otherwise the process's working
directory `os.getcwd()` (step 2), abstracted as `processCwd`. -/
def selectedDir (processCwd : String) (data : JVal) : String :=
  match data with
  | .obj l =>
    match alistLookup "cwd" l with
    | some (.str s) => if s = "" then processCwd else s
    | _ => processCwd
  | _ => processCwd

/-- Modelled from the spec: `_detect_project_context(data, platform)` is
absent from the src snapshot of notify.py (only its unit tests are
present).  Per spec section 4.2 it resolves a best-effort project name:
from the selected directory it tries the version-control query, and if
that yields nothing it falls back to the final path segment (base name)
of the selected directory. -/
def detectProjectContext (git : String → Option String) (processCwd : String)
    (data : JVal) : String :=
  let dir := selectedDir processCwd data
  let name := getGitRepoName git dir
  if name = "" then basenameStr dir else name

/-! ### Helper lemmas -/

@[simp] theorem pyContains_obj (k : String) (l : List (String × JVal)) :
    pyContains k (JVal.obj l) = .ok (alistLookup k l).isSome := rfl

@[simp] theorem pyGetItem_obj (l : List (String × JVal)) (k : String) :
    pyGetItem (JVal.obj l) k =
      (match alistLookup k l with
       | some v => .ok v
       | none => .error (.keyError k)) := rfl

@[simp] theorem pyGet_obj (l : List (String × JVal)) (k : String) (dflt : JVal) :
    pyGet (JVal.obj l) k dflt = .ok ((alistLookup k l).getD dflt) := rfl

/-- Does every value of the association list hold a JSON string? -/
def allStrVals (l : List (String × JVal)) : Bool :=
  l.all fun p => match p.2 with | .str _ => true | _ => false

theorem alistLookup_allStr {k : String} :
    ∀ {l : List (String × JVal)} {v : JVal}, allStrVals l = true →
      alistLookup k l = some v → ∃ s, v = JVal.str s := by
  intro l
  induction l with
  | nil => intro v _ hv; exact absurd hv (by simp [alistLookup])
  | cons p rest ih =>
    intro v h hv
    obtain ⟨pk, pv⟩ := p
    simp only [allStrVals, List.all_cons, Bool.and_eq_true] at h
    obtain ⟨h1, h2⟩ := h
    rw [alistLookup] at hv
    by_cases hk : pk = k
    · rw [if_pos hk] at hv
      cases hv
      cases v with
      | str s => exact ⟨s, rfl⟩
      | null => simp at h1
      | bool b => simp at h1
      | num n => simp at h1
      | arr xs => simp at h1
      | obj f => simp at h1
    · rw [if_neg hk] at hv
      exact ih h2 hv

theorem pyGet_ok {data : JVal} {k : String} {dflt v : JVal}
    (h : pyGet data k dflt = .ok v) :
    ∃ l, data = JVal.obj l ∧ v = (alistLookup k l).getD dflt := by
  cases data with
  | obj l => exact ⟨l, rfl, by simpa [pyGet] using h.symm⟩
  | null => exact absurd h (by simp [pyGet])
  | bool b => exact absurd h (by simp [pyGet])
  | num n => exact absurd h (by simp [pyGet])
  | str s => exact absurd h (by simp [pyGet])
  | arr xs => exact absurd h (by simp [pyGet])

theorem pyGetItem_ok {data : JVal} {k : String} {v : JVal}
    (h : pyGetItem data k = .ok v) :
    ∃ l, data = JVal.obj l ∧ alistLookup k l = some v := by
  cases data with
  | obj l =>
    refine ⟨l, rfl, ?_⟩
    revert h
    simp only [pyGetItem_obj]
    cases hl : alistLookup k l with
    | some w => intro h; cases h; rfl
    | none => intro h; cases h
  | null => exact absurd h (by simp [pyGetItem])
  | bool b => exact absurd h (by simp [pyGetItem])
  | num n => exact absurd h (by simp [pyGetItem])
  | str s => exact absurd h (by simp [pyGetItem])
  | arr xs => exact absurd h (by simp [pyGetItem])

/-- On an object payload all of whose values are strings, any `.get` with
a string default produces a string. -/
theorem getD_str_of_allStr {l : List (String × JVal)} (h : allStrVals l = true)
    (k : String) (dflt : String) :
    ∃ s, (alistLookup k l).getD (JVal.str dflt) = JVal.str s := by
  cases hk : alistLookup k l with
  | none => exact ⟨dflt, rfl⟩
  | some v =>
    obtain ⟨s, rfl⟩ := alistLookup_allStr h hk
    exact ⟨s, rfl⟩

theorem branchHook_ok {l : List (String × JVal)} (h : allStrVals l = true)
    (hv : JVal) : ∃ e, branchHook (JVal.obj l) hv = .ok e := by
  obtain ⟨sAgent, hAgent⟩ := getD_str_of_allStr h "agent" ""
  obtain ⟨sFile, hFile⟩ := getD_str_of_allStr h "file_path" "file"
  obtain ⟨sTool, hTool⟩ := getD_str_of_allStr h "tool_name" "tool"
  unfold branchHook
  simp only [pyGet_obj, hAgent, hFile, hTool, pyBasename, pyLower]
  cases hc1 : (pyEq hv (.str "sessionEnd") || pyEq hv (.str "stop")) with
  | true => exact ⟨_, by simp [hc1]; rfl⟩
  | false =>
    cases hc2 : pyEq hv (.str "postToolUse") with
    | true => exact ⟨_, by simp [hc1, hc2]; rfl⟩
    | false =>
      cases hc3 : pyEq hv (.str "afterFileEdit") with
      | true => exact ⟨_, by simp [hc1, hc2, hc3]; rfl⟩
      | false => exact ⟨_, by simp [hc1, hc2, hc3]; rfl⟩

theorem afterHook_ok {l : List (String × JVal)} :
    ∃ e, afterHook (JVal.obj l) = .ok e := by
  unfold afterHook branchCodex fallbackEvent
  simp only [pyContains_obj, pyGet_obj]
  cases hc : (alistLookup "agent-turn-complete" l).isSome with
  | true => exact ⟨_, by simp [hc]; rfl⟩
  | false =>
    cases hc2 : pyEq ((alistLookup "type" l).getD .null) (.str "agent-turn-complete") with
    | true => exact ⟨_, by simp [hc, hc2]; rfl⟩
    | false => exact ⟨_, by simp [hc, hc2]; rfl⟩

theorem afterSource_ok {l : List (String × JVal)} (h : allStrVals l = true) :
    ∃ e, afterSource (JVal.obj l) = .ok e := by
  unfold afterSource
  simp only [pyGet_obj]
  obtain ⟨sHook, hHook⟩ := getD_str_of_allStr h "hook_event_name" ""
  rw [hHook]
  cases hc : pyTruthy (JVal.str sHook) with
  | true =>
    obtain ⟨e, he⟩ := branchHook_ok h (JVal.str sHook)
    exact ⟨e, by simp [hc, he]⟩
  | false =>
    obtain ⟨e, he⟩ := afterHook_ok (l := l)
    exact ⟨e, by simp [hc, he]⟩

theorem afterTool_ok {l : List (String × JVal)} (h : allStrVals l = true) :
    ∃ e, afterTool (JVal.obj l) = .ok e := by
  unfold afterTool branchSource
  simp only [pyContains_obj, pyGetItem_obj]
  obtain ⟨e0, he0⟩ := afterSource_ok h
  cases hsrc : alistLookup "source" l with
  | none => exact ⟨e0, by simp [hsrc, he0]⟩
  | some sv =>
    cases htool : (alistLookup "toolName" l).isSome with
    | true => exact ⟨e0, by simp [hsrc, htool, he0]⟩
    | false =>
      cases hnt : (alistLookup "notification_type" l).isSome with
      | true => exact ⟨e0, by simp [hsrc, htool, hnt, he0]⟩
      | false => exact ⟨_, by simp [hsrc, htool, hnt]; rfl⟩

theorem afterReason_ok {l : List (String × JVal)} (h : allStrVals l = true) :
    ∃ e, afterReason (JVal.obj l) = .ok e := by
  unfold afterReason branchTool
  simp only [pyContains_obj, pyGetItem_obj]
  obtain ⟨e0, he0⟩ := afterTool_ok h
  cases htool : alistLookup "toolName" l with
  | none => exact ⟨e0, by simp [htool, he0]⟩
  | some tv =>
    cases hres : alistLookup "toolResult" l with
    | none => exact ⟨e0, by simp [htool, hres, he0]⟩
    | some rv =>
      obtain ⟨s, rfl⟩ := alistLookup_allStr h hres
      exact ⟨_, by simp [htool, hres, tableGet]; rfl⟩

theorem parse_core_ok_of_allStr {l : List (String × JVal)}
    (h : allStrVals l = true) :
    ∃ e, parse_input_core (JVal.obj l) = .ok e := by
  unfold parse_input_core branchClaude branchReason
  simp only [pyContains_obj, pyGetItem_obj, pyGet_obj]
  obtain ⟨e0, he0⟩ := afterReason_ok h
  cases hnt : alistLookup "notification_type" l with
  | some nv => exact ⟨_, by simp [hnt]; rfl⟩
  | none =>
    cases hreason : alistLookup "reason" l with
    | none => exact ⟨e0, by simp [hnt, hreason, he0]⟩
    | some rv =>
      cases htool : (alistLookup "toolName" l).isSome with
      | true => exact ⟨e0, by simp [hnt, hreason, htool, he0]⟩
      | false =>
        obtain ⟨s, rfl⟩ := alistLookup_allStr h hreason
        exact ⟨_, by simp [hnt, hreason, htool, tableGet]; rfl⟩

/-! ### C1 — totality of normalization -/

/-- C1 counterexample: on stdin `"42"` — valid JSON that is a bare number,
for which `json.loads` returns the integer `42` — the membership test
`"notification_type" in data` raises `TypeError`, so `parse_input` raises
instead of returning an Event.  This refutes the claim that normalization
is total for every raw input, including valid JSON that is not an object. -/
theorem normalize_not_total_on_bare_number :
    parse_input "42" ["notify.py"] (some (JVal.num 42)) =
      .error (.typeError "argument of type 'int' is not iterable") := rfl

/-- C1 (amended): `parse_input` is total — it returns a well-formed Event
and raises nothing — whenever the stripped input is empty, or is not valid
JSON, or parses to a JSON object all of whose top-level values are
strings.  (Valid JSON that is not an object raises `TypeError` or
`AttributeError`; an object can also raise for specific non-string field
values such as an array-valued `reason` or `resultType`, or a non-string
`agent` or `file_path`.) -/
theorem normalize_total_amended (raw : String) (argv : List String)
    (parsed : Option JVal)
    (h : raw = "" ∨ parsed = none ∨
         ∃ l, parsed = some (JVal.obj l) ∧ allStrVals l = true) :
    ∃ e, parse_input raw argv parsed = .ok e := by
  by_cases hr : raw = ""
  · by_cases ha : argv.length > 1
    · exact ⟨_, by simp [parse_input, hr, ha]; rfl⟩
    · exact ⟨_, by simp [parse_input, hr, ha]; rfl⟩
  · rcases h with h | h | ⟨l, hp, hl⟩
    · exact absurd h hr
    · subst h
      exact ⟨_, by simp [parse_input, hr]; rfl⟩
    · subst hp
      obtain ⟨e, he⟩ := parse_core_ok_of_allStr hl
      exact ⟨e, by simp [parse_input, hr, he]⟩

/-- C1 witness: non-JSON input is returned verbatim as an unknown-platform
message. -/
theorem normalize_total_amended_witness :
    ∃ e, parse_input "plain text message" ["notify.py"] none = .ok e :=
  normalize_total_amended "plain text message" ["notify.py"] none
    (Or.inr (Or.inl rfl))

/-! ### C2 — enrichment resolution order (spec-modelled) -/

/-- C2: the enrichment resolution order of spec section 4.2, on the
spec-modelled Context Enricher: (1) a non-empty payload working-directory
hint is the selected directory, whatever the process working directory is;
(2) if the version-control query fails for any reason, the project is the
base name of the selected directory; (3) if it succeeds, the project is
the top-level directory's base name (when non-empty). -/
theorem enrichment_resolution_order (git : String → Option String)
    (processCwd : String) (data : JVal) :
    (∀ l s, data = JVal.obj l → alistLookup "cwd" l = some (JVal.str s) →
       s ≠ "" → selectedDir processCwd data = s) ∧
    (git (selectedDir processCwd data) = none →
       detectProjectContext git processCwd data =
         basenameStr (selectedDir processCwd data)) ∧
    (∀ top, git (selectedDir processCwd data) = some top →
       basenameStr top ≠ "" →
       detectProjectContext git processCwd data = basenameStr top) := by
  refine ⟨?_, ?_, ?_⟩
  · intro l s hd hcwd hs
    subst hd
    simp [selectedDir, hcwd, hs]
  · intro hgit
    simp [detectProjectContext, getGitRepoName, hgit]
  · intro top hgit htop
    simp [detectProjectContext, getGitRepoName, hgit, htop]

/-- C2 witness: with a payload hint `/Users/dev/my-folder`, a different
process working directory, and a failing version-control query, the hint
directory is selected and its base name becomes the project. -/
theorem enrichment_resolution_order_witness :
    selectedDir "/home/other" (JVal.obj [("cwd", JVal.str "/Users/dev/my-folder")]) =
      "/Users/dev/my-folder" ∧
    detectProjectContext (fun _ => none) "/home/other"
      (JVal.obj [("cwd", JVal.str "/Users/dev/my-folder")]) = "my-folder" := by
  refine ⟨?_, ?_⟩
  · exact (enrichment_resolution_order (fun _ => none) "/home/other"
      (JVal.obj [("cwd", JVal.str "/Users/dev/my-folder")])).1
      _ "/Users/dev/my-folder" rfl rfl (by decide)
  · have h := (enrichment_resolution_order (fun _ => none) "/home/other"
      (JVal.obj [("cwd", JVal.str "/Users/dev/my-folder")])).2.1 rfl
    rw [h]
    rfl

/-! ### C6 — opencode payloads (code_bug evidence) -/

/-- C6: evaluating the src detector chain on the opencode idle payload
from the repository's own test suite
(`{"platform":"opencode","event_type":"session.idle","message":"Session completed"}`):
no detector matches, so the payload falls through to the unknown-platform
fallback, while the test `test_opencode_session_idle` expects
`platform=opencode`, `event=session.idle` and the canonical
"Session completed — waiting for your input" message. -/
theorem opencode_payload_falls_to_unknown :
    parse_input_core (JVal.obj
        [("platform", JVal.str "opencode"),
         ("event_type", JVal.str "session.idle"),
         ("message", JVal.str "Session completed")]) =
      .ok ⟨"unknown", JVal.str "notification", JVal.str "Session completed"⟩ := rfl

/-! ### C8 — message formatting (code_bug evidence) -/

/-- C8: evaluating the src formatting functions.  First conjunct: on an
event carrying `message = "Task completed"` the body is just the message —
the src `_format_body` has no project parameter at all, so no bracketed
project tag can ever be produced, while the repository's own test
`TestFormatBody.test_with_project` expects `"[my-app] Task completed"`.
Second conjunct: for a platform tag outside `PLATFORM_LABELS` the title
falls back to the raw tag, not to the generic "AI Agent" label (and
`opencode` is missing from the src label table, while
`TestFormatTitle.test_opencode_platform` expects "OpenCode").  Third
conjunct: the empty-message fallback to the raw event kind does hold. -/
theorem format_functions_code_eval :
    format_body ⟨"claude_code", JVal.str "idle", JVal.str "Task completed"⟩ =
      JVal.str "Task completed" ∧
    format_title ⟨"opencode", JVal.str "session.idle", JVal.str ""⟩ =
      "Agent Notifier — opencode" ∧
    format_body ⟨"claude_code", JVal.str "idle_prompt", JVal.str ""⟩ =
      JVal.str "idle_prompt" := ⟨rfl, rfl, rfl⟩

/-! ### C3 — postToolUse detector priority -/

/-- C3 counterexample: the payload
`{"notification_type":"ping","toolName":"bash","toolResult":{}}` contains
both `toolName` and `toolResult`, yet its eventKind is `"ping"`, not
`"postToolUse"` — the Claude Code detector runs first. -/
theorem postToolUse_priority_counterexample :
    parse_input_core (JVal.obj
        [("notification_type", JVal.str "ping"),
         ("toolName", JVal.str "bash"),
         ("toolResult", JVal.obj [])]) =
      .ok ⟨"claude_code", JVal.str "ping", JVal.str "ping"⟩ ∧
    JVal.str "ping" ≠ JVal.str "postToolUse" := by
  refine ⟨rfl, ?_⟩
  intro h
  injection h with h2
  exact absurd h2 (by decide)

/-- C3 (amended): for every payload containing both `toolName` and
`toolResult` and NOT containing `notification_type`, whenever the detector
chain returns an Event (it raises instead when `toolResult` maps
`resultType` to an array or object, cf. C1), that Event's eventKind is
exactly `postToolUse` — in particular `reason` and/or `source` keys being
present does not change this. -/
theorem postToolUse_priority_amended (l : List (String × JVal)) (e : Event)
    (htool : (alistLookup "toolName" l).isSome = true)
    (hres : (alistLookup "toolResult" l).isSome = true)
    (hnt : alistLookup "notification_type" l = none)
    (hok : parse_input_core (JVal.obj l) = .ok e) :
    e.event = JVal.str "postToolUse" := by
  obtain ⟨tv, htv⟩ := Option.isSome_iff_exists.mp htool
  obtain ⟨rv, hrv⟩ := Option.isSome_iff_exists.mp hres
  unfold parse_input_core at hok
  rw [pyContains_obj, hnt] at hok
  simp only [Option.isSome_none] at hok
  rw [pyContains_obj] at hok
  have hafter : afterReason (JVal.obj l) = .ok e := by
    cases hr : alistLookup "reason" l with
    | none => simpa [hr] using hok
    | some rv2 => simpa [hr, htv] using hok
  unfold afterReason branchTool at hafter
  simp only [pyContains_obj, pyGetItem_obj, htv, hrv, Option.isSome_some] at hafter
  split at hafter
  · simp at hafter
  · simp only [Except.ok.injEq] at hafter
    subst hafter
    rfl

/-- C3 witness: a payload with `toolName`, `toolResult` and `reason`, no
`notification_type`: eventKind is `postToolUse` (the `reason` key does not
divert it to the sessionEnd detector). -/
theorem postToolUse_priority_amended_witness :
    parse_input_core (JVal.obj
        [("toolName", JVal.str "bash"),
         ("toolResult", JVal.obj [("resultType", JVal.str "success")]),
         ("reason", JVal.str "complete")]) =
      .ok ⟨"copilot_cli", JVal.str "postToolUse",
           JVal.str "Tool 'bash' completed successfully"⟩ ∧
    (Event.mk "copilot_cli" (JVal.str "postToolUse")
        (JVal.str "Tool 'bash' completed successfully")).event =
      JVal.str "postToolUse" :=
  ⟨rfl,
   postToolUse_priority_amended
     [("toolName", JVal.str "bash"),
      ("toolResult", JVal.obj [("resultType", JVal.str "success")]),
      ("reason", JVal.str "complete")]
     _ rfl rfl rfl rfl⟩

/-! ### C4 — reason detector -/

/-- C4 counterexample: the payload `{"notification_type":"x","reason":"complete"}`
has `reason` present and `toolName` absent, yet normalization returns
platform `claude_code` with eventKind `"x"`, not `copilot_cli` with
`sessionEnd` — the Claude Code detector outranks the reason detector. -/
theorem reason_detector_counterexample :
    parse_input_core (JVal.obj
        [("notification_type", JVal.str "x"),
         ("reason", JVal.str "complete")]) =
      .ok ⟨"claude_code", JVal.str "x", JVal.str "x"⟩ ∧
    "claude_code" ≠ "copilot_cli" := ⟨rfl, by decide⟩

/-- C4 (amended): for every payload with `reason` present, `toolName`
absent and `notification_type` absent, whenever the detector chain returns
an Event (it raises instead when `reason` is an array or object, cf. C1),
that Event has platform `copilot_cli` — never `unknown` — and eventKind
`sessionEnd`. -/
theorem reason_detector_amended (l : List (String × JVal)) (e : Event)
    (hreason : (alistLookup "reason" l).isSome = true)
    (htool : alistLookup "toolName" l = none)
    (hnt : alistLookup "notification_type" l = none)
    (hok : parse_input_core (JVal.obj l) = .ok e) :
    e.platform = "copilot_cli" ∧ e.event = JVal.str "sessionEnd" ∧
      e.platform ≠ "unknown" := by
  obtain ⟨rv, hrv⟩ := Option.isSome_iff_exists.mp hreason
  unfold parse_input_core branchReason at hok
  simp only [pyContains_obj, pyGetItem_obj, hnt, hrv, htool,
    Option.isSome_none, Option.isSome_some] at hok
  split at hok
  · simp at hok
  · simp only [Except.ok.injEq] at hok
    subst hok
    exact ⟨rfl, rfl, by simp⟩

/-- C4 witness: `{"reason":"timeout"}` resolves to the Copilot CLI
sessionEnd event. -/
theorem reason_detector_amended_witness :
    parse_input_core (JVal.obj [("reason", JVal.str "timeout")]) =
      .ok ⟨"copilot_cli", JVal.str "sessionEnd", JVal.str "Session timed out"⟩ ∧
    ((Event.mk "copilot_cli" (JVal.str "sessionEnd")
        (JVal.str "Session timed out")).platform = "copilot_cli" ∧
     (Event.mk "copilot_cli" (JVal.str "sessionEnd")
        (JVal.str "Session timed out")).event = JVal.str "sessionEnd" ∧
     (Event.mk "copilot_cli" (JVal.str "sessionEnd")
        (JVal.str "Session timed out")).platform ≠ "unknown") :=
  ⟨rfl, reason_detector_amended [("reason", JVal.str "timeout")] _ rfl rfl rfl rfl⟩

/-! ### C5 — notification_type message selection -/

/-- C5 counterexample: for the unrecognized type `"custom"` with the
message key present but holding the empty string, the code returns the
type string `"custom"` as the message (`msg or ntype` with a falsy `msg`),
not the literal provided message `""`. -/
theorem notification_type_empty_message_counterexample :
    parse_input_core (JVal.obj
        [("notification_type", JVal.str "custom"),
         ("message", JVal.str "")]) =
      .ok ⟨"claude_code", JVal.str "custom", JVal.str "custom"⟩ ∧
    JVal.str "custom" ≠ JVal.str "" := by
  refine ⟨rfl, ?_⟩
  intro h
  injection h with h2
  exact absurd h2 (by decide)

/-- C5 (amended): for every payload whose `notification_type` is the
string `t`: a mapped type (`idle_prompt`, `permission_prompt`) yields the
fixed templated message, overriding any provided message; an unrecognized
type yields the provided message when it is truthy (in particular
non-empty), and otherwise — no message given, or a falsy one such as the
empty string — the type string itself. -/
theorem notification_type_message_rules (l : List (String × JVal)) (t : String)
    (hnt : alistLookup "notification_type" l = some (JVal.str t)) :
    (t = "idle_prompt" →
       parse_input_core (JVal.obj l) =
         .ok ⟨"claude_code", JVal.str t,
              JVal.str "✅ Task completed — waiting for your input"⟩) ∧
    (t = "permission_prompt" →
       parse_input_core (JVal.obj l) =
         .ok ⟨"claude_code", JVal.str t, JVal.str "🔐 Permission required"⟩) ∧
    (t ≠ "idle_prompt" → t ≠ "permission_prompt" →
       parse_input_core (JVal.obj l) =
         .ok ⟨"claude_code", JVal.str t,
              if pyTruthy ((alistLookup "message" l).getD (JVal.str "")) then
                (alistLookup "message" l).getD (JVal.str "")
              else JVal.str t⟩) := by
  refine ⟨?_, ?_, ?_⟩
  · intro ht
    subst ht
    unfold parse_input_core branchClaude
    simp [hnt, pyEq]
  · intro ht
    subst ht
    unfold parse_input_core branchClaude
    simp [hnt, pyEq]
  · intro ht1 ht2
    unfold parse_input_core branchClaude
    simp [hnt, pyEq, ht1, ht2]

/-- C5 witness, covering both rules at concrete inputs: the spec scenario
`{"notification_type":"idle_prompt","message":"Done"}` produces the
templated completion message (overriding `"Done"`), and an unrecognized
type with a non-empty message keeps the literal message. -/
theorem notification_type_message_rules_witness :
    parse_input_core (JVal.obj
        [("notification_type", JVal.str "idle_prompt"),
         ("message", JVal.str "Done")]) =
      .ok ⟨"claude_code", JVal.str "idle_prompt",
           JVal.str "✅ Task completed — waiting for your input"⟩ ∧
    parse_input_core (JVal.obj
        [("notification_type", JVal.str "custom"),
         ("message", JVal.str "Build finished")]) =
      .ok ⟨"claude_code", JVal.str "custom", JVal.str "Build finished"⟩ :=
  ⟨(notification_type_message_rules
      [("notification_type", JVal.str "idle_prompt"), ("message", JVal.str "Done")]
      "idle_prompt" rfl).1 rfl,
   (notification_type_message_rules
      [("notification_type", JVal.str "custom"), ("message", JVal.str "Build finished")]
      "custom" rfl).2.2 (by decide) (by decide)⟩

/-! ### Event-kind shape lemmas (for C7) -/

theorem branchClaude_event {data : JVal} {e : Event}
    (h : branchClaude data = .ok e) :
    ∃ l v, data = JVal.obj l ∧ alistLookup "notification_type" l = some v ∧
      e.event = v := by
  unfold branchClaude at h
  cases hg : pyGetItem data "notification_type" with
  | error err => simp [hg] at h
  | ok ntype =>
    simp only [hg] at h
    cases hm : pyGet data "message" (.str "") with
    | error err => simp [hm] at h
    | ok msg =>
      simp only [hm, Except.ok.injEq] at h
      subst h
      obtain ⟨l, rfl, hlook⟩ := pyGetItem_ok hg
      exact ⟨l, ntype, rfl, hlook, rfl⟩

theorem branchReason_event {data : JVal} {e : Event}
    (h : branchReason data = .ok e) : e.event = JVal.str "sessionEnd" := by
  unfold branchReason at h
  cases hg : pyGetItem data "reason" with
  | error err => simp [hg] at h
  | ok reason =>
    simp only [hg] at h
    split at h
    · simp at h
    · simp only [Except.ok.injEq] at h
      subst h
      rfl

theorem branchTool_event {data : JVal} {e : Event}
    (h : branchTool data = .ok e) : e.event = JVal.str "postToolUse" := by
  unfold branchTool at h
  cases hg : pyGetItem data "toolName" with
  | error err => simp [hg] at h
  | ok tool =>
    simp only [hg] at h
    cases hg2 : pyGetItem data "toolResult" with
    | error err => simp [hg2] at h
    | ok result =>
      simp only [hg2] at h
      split at h
      · simp at h
      · simp only [Except.ok.injEq] at h
        subst h
        rfl

theorem branchSource_event {data : JVal} {e : Event}
    (h : branchSource data = .ok e) : e.event = JVal.str "sessionStart" := by
  unfold branchSource at h
  cases hg : pyGetItem data "source" with
  | error err => simp [hg] at h
  | ok source =>
    simp only [hg, Except.ok.injEq] at h
    subst h
    rfl

theorem branchCodex_event {data : JVal} {e : Event}
    (h : branchCodex data = .ok e) : e.event = JVal.str "agent-turn-complete" := by
  unfold branchCodex at h
  cases hg : pyGet data "message" (.str "Agent turn completed") with
  | error err => simp [hg] at h
  | ok msg =>
    simp only [hg, Except.ok.injEq] at h
    subst h
    rfl

theorem fallbackEvent_event {data : JVal} {e : Event}
    (h : fallbackEvent data = .ok e) : e.event = JVal.str "notification" := by
  unfold fallbackEvent at h
  cases hg : pyGet data "message" (.str (jsonDumps data)) with
  | error err => simp [hg] at h
  | ok msg =>
    simp only [hg, Except.ok.injEq] at h
    subst h
    rfl

theorem branchHook_event {data hv : JVal} {e : Event}
    (h : branchHook data hv = .ok e) : e.event = hv := by
  unfold branchHook at h
  cases hs : pyGet data "status" (.str "") with
  | error err => simp [hs] at h
  | ok status =>
    simp only [hs] at h
    revert h
    generalize (if pyEq hv (JVal.str "sessionEnd") || pyEq hv (JVal.str "stop") then
        Except.ok (JVal.str (if pyEq status (JVal.str "completed") then "Task completed"
                             else "Session ended"))
      else if pyEq hv (JVal.str "postToolUse") then
        match pyGet data "tool_name" (JVal.str "tool") with
        | .error e => .error e
        | .ok tool => .ok (JVal.str ("Tool '" ++ pyStr tool ++ "' finished"))
      else if pyEq hv (JVal.str "afterFileEdit") then
        match pyGet data "file_path" (JVal.str "file") with
        | .error e => .error e
        | .ok file =>
          match pyBasename file with
          | .error e => .error e
          | .ok base => .ok (JVal.str ("Edited " ++ base))
      else .ok hv) = M
    intro h
    cases M with
    | error err => simp at h
    | ok event_msg =>
      cases ha : pyGet data "agent" (.str "") with
      | error err => simp [ha] at h
      | ok agent =>
        simp only [ha] at h
        cases hl : pyLower agent with
        | error err => simp [hl] at h
        | ok agentLower =>
          simp only [hl, Except.ok.injEq] at h
          subst h
          rfl

theorem afterHook_event {data : JVal} {e : Event}
    (h : afterHook data = .ok e) :
    e.event = JVal.str "agent-turn-complete" ∨ e.event = JVal.str "notification" := by
  unfold afterHook at h
  cases hc : pyContains "agent-turn-complete" data with
  | error err => simp [hc] at h
  | ok b =>
    simp only [hc] at h
    cases b with
    | true => exact Or.inl (branchCodex_event h)
    | false =>
      cases hg : pyGet data "type" .null with
      | error err => simp [hg] at h
      | ok t =>
        simp only [hg] at h
        cases hq : pyEq t (JVal.str "agent-turn-complete") with
        | true =>
          rw [hq] at h
          exact Or.inl (branchCodex_event (by simpa using h))
        | false =>
          rw [hq] at h
          exact Or.inr (fallbackEvent_event (by simpa using h))

theorem afterSource_event {data : JVal} {e : Event}
    (h : afterSource data = .ok e) :
    (∃ l v, data = JVal.obj l ∧ alistLookup "hook_event_name" l = some v ∧
       pyTruthy v = true ∧ e.event = v) ∨
    e.event = JVal.str "agent-turn-complete" ∨ e.event = JVal.str "notification" := by
  unfold afterSource at h
  cases hg : pyGet data "hook_event_name" (.str "") with
  | error err => simp [hg] at h
  | ok hv =>
    simp only [hg] at h
    cases ht : pyTruthy hv with
    | false =>
      rw [ht] at h
      exact Or.inr (afterHook_event (by simpa using h))
    | true =>
      rw [ht] at h
      have hb : branchHook data hv = .ok e := by simpa using h
      obtain ⟨l, rfl, hvval⟩ := pyGet_ok hg
      cases hlk : alistLookup "hook_event_name" l with
      | none =>
        rw [hlk] at hvval
        subst hvval
        simp [pyTruthy] at ht
      | some v =>
        rw [hlk, Option.getD_some] at hvval
        subst hvval
        exact Or.inl ⟨l, hv, rfl, hlk, ht, branchHook_event hb⟩

theorem afterTool_event {data : JVal} {e : Event}
    (h : afterTool data = .ok e) :
    e.event = JVal.str "sessionStart" ∨
    (∃ l v, data = JVal.obj l ∧ alistLookup "hook_event_name" l = some v ∧
       pyTruthy v = true ∧ e.event = v) ∨
    e.event = JVal.str "agent-turn-complete" ∨ e.event = JVal.str "notification" := by
  unfold afterTool at h
  cases hc : pyContains "source" data with
  | error err => simp [hc] at h
  | ok b =>
    simp only [hc] at h
    cases b with
    | false => exact Or.inr (afterSource_event h)
    | true =>
      cases hc2 : pyContains "toolName" data with
      | error err => simp [hc2] at h
      | ok b2 =>
        simp only [hc2] at h
        cases b2 with
        | true => exact Or.inr (afterSource_event h)
        | false =>
          cases hc3 : pyContains "notification_type" data with
          | error err => simp [hc3] at h
          | ok b3 =>
            simp only [hc3] at h
            cases b3 with
            | true => exact Or.inr (afterSource_event h)
            | false => exact Or.inl (branchSource_event h)

theorem afterReason_event {data : JVal} {e : Event}
    (h : afterReason data = .ok e) :
    e.event = JVal.str "postToolUse" ∨ e.event = JVal.str "sessionStart" ∨
    (∃ l v, data = JVal.obj l ∧ alistLookup "hook_event_name" l = some v ∧
       pyTruthy v = true ∧ e.event = v) ∨
    e.event = JVal.str "agent-turn-complete" ∨ e.event = JVal.str "notification" := by
  unfold afterReason at h
  cases hc : pyContains "toolName" data with
  | error err => simp [hc] at h
  | ok b =>
    simp only [hc] at h
    cases b with
    | false => exact Or.inr (afterTool_event h)
    | true =>
      cases hc2 : pyContains "toolResult" data with
      | error err => simp [hc2] at h
      | ok b2 =>
        simp only [hc2] at h
        cases b2 with
        | true => exact Or.inl (branchTool_event h)
        | false => exact Or.inr (afterTool_event h)

/-- Any Event returned by the detector chain has one of these eventKinds:
a fixed literal, the payload's `notification_type` value, or the payload's
truthy `hook_event_name` value. -/
theorem parse_core_event_cases {data : JVal} {e : Event}
    (h : parse_input_core data = .ok e) :
    (∃ l v, data = JVal.obj l ∧ alistLookup "notification_type" l = some v ∧
       e.event = v) ∨
    e.event = JVal.str "sessionEnd" ∨ e.event = JVal.str "postToolUse" ∨
    e.event = JVal.str "sessionStart" ∨
    (∃ l v, data = JVal.obj l ∧ alistLookup "hook_event_name" l = some v ∧
       pyTruthy v = true ∧ e.event = v) ∨
    e.event = JVal.str "agent-turn-complete" ∨ e.event = JVal.str "notification" := by
  unfold parse_input_core at h
  cases hc : pyContains "notification_type" data with
  | error err => simp [hc] at h
  | ok b =>
    simp only [hc] at h
    cases b with
    | true => exact Or.inl (branchClaude_event h)
    | false =>
      cases hc2 : pyContains "reason" data with
      | error err => simp [hc2] at h
      | ok b2 =>
        simp only [hc2] at h
        cases b2 with
        | false =>
          rcases afterReason_event h with h1 | h1 | h1 | h1 | h1
          · exact Or.inr (Or.inr (Or.inl h1))
          · exact Or.inr (Or.inr (Or.inr (Or.inl h1)))
          · exact Or.inr (Or.inr (Or.inr (Or.inr (Or.inl h1))))
          · exact Or.inr (Or.inr (Or.inr (Or.inr (Or.inr (Or.inl h1)))))
          · exact Or.inr (Or.inr (Or.inr (Or.inr (Or.inr (Or.inr h1)))))
        | true =>
          cases hc3 : pyContains "toolName" data with
          | error err => simp [hc3] at h
          | ok b3 =>
            simp only [hc3] at h
            cases b3 with
            | false => exact Or.inr (Or.inl (branchReason_event h))
            | true =>
              rcases afterReason_event h with h1 | h1 | h1 | h1 | h1
              · exact Or.inr (Or.inr (Or.inl h1))
              · exact Or.inr (Or.inr (Or.inr (Or.inl h1)))
              · exact Or.inr (Or.inr (Or.inr (Or.inr (Or.inl h1))))
              · exact Or.inr (Or.inr (Or.inr (Or.inr (Or.inr (Or.inl h1)))))
              · exact Or.inr (Or.inr (Or.inr (Or.inr (Or.inr (Or.inr h1)))))

/-! ### C7 — eventKind non-emptiness -/

/-- C7 counterexample: the payload `{"notification_type":""}` — the very
case the claim names — produces an Event whose eventKind is the empty
string: the Claude Code detector passes the `notification_type` value
through verbatim. -/
theorem eventKind_empty_counterexample :
    parse_input_core (JVal.obj [("notification_type", JVal.str "")]) =
      .ok ⟨"claude_code", JVal.str "", JVal.str ""⟩ ∧
    ¬ ∃ s, (Event.mk "claude_code" (JVal.str "") (JVal.str "")).event =
        JVal.str s ∧ s ≠ "" := by
  refine ⟨rfl, ?_⟩
  rintro ⟨s, hs, hne⟩
  injection hs with h2
  exact hne h2.symm

/-- C7 (amended): every Event returned by `parse_input` has a non-empty
string eventKind (defaulting to `"notification"`), provided the payload's
`notification_type` value, when present, is a non-empty string, and its
`hook_event_name` value, when present, is a string.  A payload whose
`notification_type` is the empty string instead yields an empty eventKind
(the value passes through verbatim), while an empty `hook_event_name` is
falsy, so that detector is skipped and a later default applies. -/
theorem eventKind_nonempty_amended (raw : String) (argv : List String)
    (parsed : Option JVal) (e : Event)
    (hok : parse_input raw argv parsed = .ok e)
    (hnt : ∀ l v, parsed = some (JVal.obj l) →
       alistLookup "notification_type" l = some v → ∃ t, v = JVal.str t ∧ t ≠ "")
    (hhe : ∀ l v, parsed = some (JVal.obj l) →
       alistLookup "hook_event_name" l = some v → ∃ s, v = JVal.str s) :
    ∃ s, e.event = JVal.str s ∧ s ≠ "" := by
  unfold parse_input at hok
  by_cases hr : raw = ""
  · by_cases ha : argv.length > 1
    · rw [if_pos ⟨hr, ha⟩] at hok
      cases hok
      exact ⟨"notification", rfl, by decide⟩
    · rw [if_neg (fun hand => ha hand.2), if_pos hr] at hok
      cases hok
      exact ⟨"notification", rfl, by decide⟩
  · rw [if_neg (fun hand => hr hand.1), if_neg hr] at hok
    cases hp : parsed with
    | none =>
      rw [hp] at hok
      cases hok
      exact ⟨"notification", rfl, by decide⟩
    | some data =>
      rw [hp] at hok
      rcases parse_core_event_cases hok with
        ⟨l, v, rfl, hlk, hev⟩ | h1 | h1 | h1 | ⟨l, v, rfl, hlk, htr, hev⟩ | h1 | h1
      · obtain ⟨t, rfl, hne⟩ := hnt l v hp hlk
        exact ⟨t, hev, hne⟩
      · exact ⟨"sessionEnd", h1, by decide⟩
      · exact ⟨"postToolUse", h1, by decide⟩
      · exact ⟨"sessionStart", h1, by decide⟩
      · obtain ⟨s, rfl⟩ := hhe l v hp hlk
        refine ⟨s, hev, ?_⟩
        intro hs
        subst hs
        simp [pyTruthy] at htr
      · exact ⟨"agent-turn-complete", h1, by decide⟩
      · exact ⟨"notification", h1, by decide⟩

/-- C7 witness: non-JSON input yields the default eventKind
`"notification"`, a non-empty string. -/
theorem eventKind_nonempty_amended_witness :
    ∃ s, (Event.mk "unknown" (JVal.str "notification")
        (JVal.str "hello")).event = JVal.str s ∧ s ≠ "" :=
  eventKind_nonempty_amended "hello" ["notify.py"] none
    ⟨"unknown", JVal.str "notification", JVal.str "hello"⟩ rfl
    (by intro l v hl; cases hl) (by intro l v hl; cases hl)

/-! ### C9 — dispatch isolation -/

theorem dispatchLines_append (senders : String → JVal → Event → Option String)
    (ev : Event) (xs ys : List (String × JVal)) :
    dispatchLines senders ev (xs ++ ys) =
      dispatchLines senders ev xs ++ dispatchLines senders ev ys := by
  induction xs with
  | nil => rfl
  | cons nc rest ih => simp [dispatchLines, ih]

theorem dispatchLines_all_none (senders : String → JVal → Event → Option String)
    (ev : Event) (xs : List (String × JVal))
    (h : ∀ nc ∈ xs, senders nc.1 nc.2 ev = none) :
    dispatchLines senders ev xs = [] := by
  induction xs with
  | nil => rfl
  | cons nc rest ih =>
    rw [dispatchLines, dispatchOne, h nc (by simp), ih]
    · rfl
    · intro nc2 h2
      exact h nc2 (List.mem_cons_of_mem nc h2)

/-- C9: with N enabled channels of which exactly one delivery function
raises, the dispatcher still invokes every channel's sender (nothing is
cancelled), writes exactly one diagnostic line
`[agent-notifier] <channelName> failed: <description>` to the error
stream and nothing to standard output, and returns normally with the
successful exit value. -/
theorem dispatch_isolation (senders : String → JVal → Event → Option String)
    (ev : Event) (pre post : List (String × JVal)) (c : String × JVal)
    (excMsg : String)
    (hfail : senders c.1 c.2 ev = some excMsg)
    (hpre : ∀ nc ∈ pre, senders nc.1 nc.2 ev = none)
    (hpost : ∀ nc ∈ post, senders nc.1 nc.2 ev = none) :
    dispatchAll senders ev (pre ++ c :: post) =
      ⟨[], ["[agent-notifier] " ++ c.1 ++ " failed: " ++ excMsg],
       (pre ++ c :: post).map Prod.fst, 0⟩ := by
  unfold dispatchAll
  congr 1
  rw [dispatchLines_append, dispatchLines_all_none senders ev pre hpre,
    dispatchLines, dispatchOne, hfail,
    dispatchLines_all_none senders ev post hpost]
  rfl

/-- C9 witness: three enabled channels, the middle one failing: the sound
and email channels still run, the telegram failure produces the single
stderr line, stdout stays empty, and dispatch returns exit value 0. -/
theorem dispatch_isolation_witness :
    dispatchAll (fun name _ _ => if name = "telegram" then some "HTTP Error 404" else none)
      ⟨"unknown", JVal.str "notification", JVal.str ""⟩
      [("sound", JVal.obj []), ("telegram", JVal.obj []), ("email", JVal.obj [])] =
      ⟨[], ["[agent-notifier] telegram failed: HTTP Error 404"],
       ["sound", "telegram", "email"], 0⟩ :=
  dispatch_isolation
    (fun name _ _ => if name = "telegram" then some "HTTP Error 404" else none)
    ⟨"unknown", JVal.str "notification", JVal.str ""⟩
    [("sound", JVal.obj [])] [("email", JVal.obj [])] ("telegram", JVal.obj [])
    "HTTP Error 404" rfl
    (by intro nc h; rcases List.mem_singleton.mp h with rfl; rfl)
    (by intro nc h; rcases List.mem_singleton.mp h with rfl; rfl)

/-! ### C10 — exit policy and configuration absence -/

/-- C10 counterexample: with a configuration file present at the
user-level path but holding malformed JSON, `json.load` raises inside
`load_config`, the exception propagates out of `main`, and the process
terminates with a traceback and a non-zero exit status — refuting
"loading the configuration never terminates the process with a non-zero
exit status, for any on-disk configuration state". -/
theorem malformed_config_crashes :
    main "" ["notify.py"] none
      (fun p => if p = userConfigPath then some none else none)
      (fun _ _ _ => none) =
      .error (.jsonDecodeError "Expecting value") := rfl

/-- Is a parsed configuration value shaped as `load_config`'s consumers
require: an object whose `channels` value, when present, is an object
with object values? -/
def configWellFormed : JVal → Bool
  | .obj fields =>
    (match alistLookup "channels" fields with
     | none => true
     | some (.obj items) =>
         items.all fun p => match p.2 with | JVal.obj _ => true | _ => false
     | some _ => false)
  | _ => false

theorem loadConfigGo_wf (fs : String → Option (Option JVal))
    (hfs : ∀ p v, fs p = some v → ∃ j, v = some j ∧ configWellFormed j = true) :
    ∀ paths, ∃ j, loadConfigGo fs paths = .ok j ∧ configWellFormed j = true := by
  intro paths
  induction paths with
  | nil => exact ⟨default_config, rfl, by decide⟩
  | cons p rest ih =>
    cases hp : fs p with
    | none => simpa [loadConfigGo, hp] using ih
    | some v =>
      obtain ⟨j, rfl, hwf⟩ := hfs p v hp
      exact ⟨j, by simp [loadConfigGo, hp], hwf⟩

theorem selectEnabled_ok (items : List (String × JVal))
    (h : (items.all fun p => match p.2 with | JVal.obj _ => true | _ => false) = true) :
    ∃ en, selectEnabled items = .ok en := by
  induction items with
  | nil => exact ⟨[], rfl⟩
  | cons p rest ih =>
    obtain ⟨name, cfg⟩ := p
    simp only [List.all_cons, Bool.and_eq_true] at h
    obtain ⟨h1, h2⟩ := h
    obtain ⟨en, hen⟩ := ih h2
    cases cfg with
    | obj cl => exact ⟨_, by simp [selectEnabled, pyGet, hen]; rfl⟩
    | null => simp at h1
    | bool b => simp at h1
    | num n => simp at h1
    | str s => simp at h1
    | arr xs => simp at h1

/-- C10 (amended): absence of a configuration file at every candidate
path is recovered via the in-memory default (which enables only the two
local channels, sound and macos_notification), and whenever every
on-disk configuration file parses to a well-shaped channels object, a run
whose normalization succeeds exits 0 regardless of per-channel delivery
outcomes.  A configuration file that exists but does not parse (or whose
shape the loader's consumers cannot traverse) instead raises and
terminates the process with a non-zero status. -/
theorem exit_policy_amended :
    load_config (fun _ => none) = .ok default_config ∧
    ∀ (fs : String → Option (Option JVal))
      (senders : String → JVal → Event → Option String)
      (raw : String) (argv : List String) (parsed : Option JVal) (ev : Event),
      (∀ p v, fs p = some v → ∃ j, v = some j ∧ configWellFormed j = true) →
      parse_input raw argv parsed = .ok ev →
      ∃ r, main raw argv parsed fs senders = .ok r ∧ r.exitCode = 0 := by
  refine ⟨rfl, ?_⟩
  intro fs senders raw argv parsed ev hfs hok
  obtain ⟨j, hload, hwf⟩ := loadConfigGo_wf fs hfs CONFIG_SEARCH_PATHS
  have hload2 : load_config fs = .ok j := hload
  unfold main
  simp only [hok, hload2]
  cases j with
  | obj fields =>
    simp only [pyGet_obj]
    cases hch : alistLookup "channels" fields with
    | none =>
      simp only [hch, Option.getD_none]
      exact ⟨⟨[], [], [], 0⟩, by simp [selectEnabled], rfl⟩
    | some ch =>
      simp only [configWellFormed, hch] at hwf
      cases ch with
      | obj items =>
        obtain ⟨en, hen⟩ := selectEnabled_ok items hwf
        simp only [hch, Option.getD_some, hen]
        cases he : en.isEmpty with
        | true => exact ⟨⟨[], [], [], 0⟩, by simp [he], rfl⟩
        | false => exact ⟨_, by simp [he]; rfl, rfl⟩
      | null => simp at hwf
      | bool b => simp at hwf
      | num n => simp at hwf
      | str s => simp at hwf
      | arr xs => simp at hwf
  | null => simp [configWellFormed] at hwf
  | bool b => simp [configWellFormed] at hwf
  | num n => simp [configWellFormed] at hwf
  | str s => simp [configWellFormed] at hwf
  | arr xs => simp [configWellFormed] at hwf

/-- C10 witness: no configuration file exists anywhere and every sender
raises; the run still loads the local-channel default and exits 0. -/
theorem exit_policy_amended_witness :
    load_config (fun _ => none) = .ok default_config ∧
    ∃ r, main "" ["notify.py"] none (fun _ => none)
        (fun _ _ _ => some "boom") = .ok r ∧ r.exitCode = 0 :=
  ⟨exit_policy_amended.1,
   exit_policy_amended.2 (fun _ => none) (fun _ _ _ => some "boom")
     "" ["notify.py"] none ⟨"unknown", JVal.str "notification", JVal.str ""⟩
     (by intro p v hv; cases hv) rfl⟩

end Notify
